import Mathlib

set_option maxHeartbeats 1000000

/-!
Verification development for the scrcpy GUI controller
(`src/scrcpygui.py`).  The program's one piece of real logic — the
command builder `_build_scrcpy_command`, the settings store
(`save_settings` / `load_settings`) and the launch action
(`_launch_scrcpy`) — is embedded shallowly below, and the specified
properties are settled as theorems about that embedding.
-/

/-- Whitespace characters removed by Python's `str.strip()`
(space, tab, newline, carriage return, vertical tab, form feed). -/
def pyIsSpace (c : Char) : Bool :=
  c = ' ' || c = '\t' || c = '\n' || c = '\r' || c = '\x0b' || c = '\x0c'

/-- Python `str.strip()`: drop leading and trailing whitespace. -/
def pyStrip (s : String) : String :=
  ⟨((s.data.dropWhile pyIsSpace).reverse.dropWhile pyIsSpace).reverse⟩

/-- The Tk variables created in `_initialize_variables`
(`src/scrcpygui.py` lines 168–198), one field per `tk.Variable`
attribute of `ScrcpyController`.  `BooleanVar` ↦ `Bool`,
`IntVar` ↦ `Int`, `StringVar` ↦ `String`. -/
structure AppState where
  dark_mode : Bool
  scrcpy_path : String
  generated_command : String
  bit_rate : Int
  max_fps : Int
  max_size : String
  fullscreen : Bool
  always_on_top : Bool
  show_touches : Bool
  turn_screen_off : Bool
  stay_awake : Bool
  audio_forward : Bool
  record_screen : Bool
  record_file_path : String
  mirror_camera : Bool
  camera_facing : String
  camera_size : String
  camera_orientation : String
  video_codec : String
  audio_codec : String
  video_buffer : Int
  v4l2_sink_path : String
  audio_bit_rate : String
deriving DecidableEq

/-- `CONSTANTS["default_audio_bit_rate"]`. -/
def default_audio_bit_rate : String := "128"

/-- The default values given to every variable in
`_initialize_variables` (`default_bit_rate` 8, `default_max_fps` 60,
`default_max_size` "1080", `default_audio_bit_rate` "128",
`default_video_buffer_ms` 0, and the literal defaults). -/
def initialize_variables : AppState where
  dark_mode := true
  scrcpy_path := ""
  generated_command := "Please select the scrcpy executable..."
  bit_rate := 8
  max_fps := 60
  max_size := "1080"
  fullscreen := false
  always_on_top := false
  show_touches := false
  turn_screen_off := false
  stay_awake := false
  audio_forward := true
  record_screen := false
  record_file_path := ""
  mirror_camera := false
  camera_facing := "back"
  camera_size := "Default"
  camera_orientation := "Default"
  video_codec := "Default"
  audio_codec := "Default"
  video_buffer := 0
  v4l2_sink_path := ""
  audio_bit_rate := "128"

/-- The first command token `f-string` `'"{path}"'`. -/
def quote_path (p : String) : String := "\"" ++ (p ++ "\"")

/-- The dict `orientation_map = {"0°": "0", "90°": "1", "180°": "2",
"270°": "3"}` of `_build_scrcpy_command`, as membership test plus
lookup. -/
def orientation_map_lookup (o : String) : Option String :=
  if o = "0°" then some "0"
  else if o = "90°" then some "1"
  else if o = "180°" then some "2"
  else if o = "270°" then some "3"
  else none

/-- The list `command` accumulated by `_build_scrcpy_command`
(`src/scrcpygui.py` lines 518–553), after the empty-path guard has
passed.  Each `++` mirrors one conditional `append` of the source, in
source order. -/
def command_tokens (s : AppState) : List String :=
  [quote_path s.scrcpy_path]
  ++ (if s.mirror_camera then
        ["--video-source=camera", "--camera-facing=" ++ s.camera_facing]
        ++ (if s.camera_size ≠ "Default" then
              ["--camera-size=" ++ pyStrip s.camera_size] else [])
        ++ (match orientation_map_lookup s.camera_orientation with
            | some n => ["--capture-orientation=" ++ n]
            | none => [])
      else
        ["--video-bit-rate=" ++ (toString s.bit_rate ++ "M"),
         "--max-fps=" ++ toString s.max_fps]
        ++ (if s.max_size ≠ "Device Native" then
              ["--max-size=" ++ s.max_size] else []))
  ++ (if s.fullscreen then ["--fullscreen"] else [])
  ++ (if s.always_on_top then ["--always-on-top"] else [])
  ++ (if s.show_touches then ["--show-touches"] else [])
  ++ (if s.turn_screen_off then ["--turn-screen-off"] else [])
  ++ (if s.stay_awake then ["--stay-awake"] else [])
  ++ (if !s.audio_forward then ["--no-audio"]
      else if s.audio_bit_rate ≠ default_audio_bit_rate then
        ["--audio-bit-rate=" ++ (s.audio_bit_rate ++ "k")]
      else [])
  ++ (if s.record_screen ∧ pyStrip s.record_file_path ≠ "" then
        ["--record=\"" ++ (pyStrip s.record_file_path ++ "\"")] else [])
  ++ (if s.video_codec ≠ "Default" then
        ["--video-codec=" ++ s.video_codec] else [])
  ++ (if s.audio_codec ≠ "Default" then
        ["--audio-codec=" ++ s.audio_codec] else [])
  ++ (if s.video_buffer > 0 then
        ["--video-buffer=" ++ toString s.video_buffer] else [])
  ++ (if pyStrip s.v4l2_sink_path ≠ "" then
        ["--v4l2-sink=" ++ pyStrip s.v4l2_sink_path] else [])

/-- `_build_scrcpy_command` (`src/scrcpygui.py` lines 512–553):
`if not path: return None`, else the accumulated token list.  A Python
`str` is falsy exactly when it is empty. -/
def build_scrcpy_command (s : AppState) : Option (List String) :=
  if s.scrcpy_path = "" then none else some (command_tokens s)

/-- Python `startswith` on strings: prefix test on the character
sequence. -/
def py_startswith (s p : String) : Bool := p.data.isPrefixOf s.data

-- quick sanity check of the embedding on the spec's concrete scenario
example :
    build_scrcpy_command { initialize_variables with scrcpy_path := "/usr/bin/scrcpy" }
      = some ["\"/usr/bin/scrcpy\"", "--video-bit-rate=8M", "--max-fps=60", "--max-size=1080"] := by
  decide

/-! ## Settings store (`save_settings` / `load_settings`) -/

/-- A JSON value as it can occur for a key of the settings file.
`jother` stands for any JSON value that is not a boolean, integer or
string (null, float, array, object). -/
inductive JVal where
  | jbool (b : Bool)
  | jint (n : Int)
  | jstr (s : String)
  | jother
deriving DecidableEq

/-- The outcome of one `var.set(value)` call on a Tk variable, with
the semantics of CPython 3.11's `tkinter`/`_tkinter`:
* `set s` — the value was stored and the typed view of the variables
  (`AppState`) reflects it;
* `setRaw` — the value was stored without an exception, but the
  stored Tcl value does not match the variable's declared type, so
  the typed view cannot represent that variable any more (a later
  `get()` on it would fail);
* `typeError` — the call raised `TypeError`, which the
  `except (FileNotFoundError, json.JSONDecodeError, TypeError)`
  handler of `load_settings` catches;
* `tclError` — the call raised `tkinter.TclError`, which that handler
  does NOT catch, so it propagates out of `load_settings`. -/
inductive SetResult where
  | set (s : AppState)
  | setRaw
  | typeError
  | tclError
deriving DecidableEq

/-- The word table of `Tcl_GetBoolean` (`BooleanVar.set` funnels
strings through `self._tk.getboolean`). -/
def tcl_bool_words : List (String × Bool) :=
  [("yes", true), ("no", false), ("true", true), ("false", false),
   ("on", true), ("off", false)]

/-- ASCII lowercasing, the case folding `Tcl_GetBoolean` applies to
its input. -/
def asciiLower (c : Char) : Char :=
  if 'A' ≤ c ∧ c ≤ 'Z' then Char.ofNat (c.toNat + 32) else c

/-- The strings `Tcl_GetBoolean` accepts: "0", "1", and any nonempty
case-insensitive prefix of "yes", "no", "true", "false", "on" or
"off" that determines its word uniquely ("o" is ambiguous and
rejected).  Everything else is an invalid boolean string. -/
def tcl_get_boolean (x : String) : Option Bool :=
  let l : String := ⟨x.data.map asciiLower⟩
  if l = "0" then some false
  else if l = "1" then some true
  else if l = "" then none
  else
    match tcl_bool_words.filter (fun wb => l.data.isPrefixOf wb.1.data) with
    | [(_, b)] => some b
    | _ => none

/-- `BooleanVar.set(value)`: the value goes through
`self._tk.getboolean(value)` first.  A boolean is stored as is, an
integer is accepted with its truth value, a string is parsed by
`Tcl_GetBoolean` — an invalid string raises `TclError` — and any
other value (null, float, array, object) raises `TypeError`. -/
def booleanVarSet (upd : Bool → AppState) (v : JVal) : SetResult :=
  match v with
  | .jbool b => .set (upd b)
  | .jint n => .set (upd (n != 0))
  | .jstr x =>
    match tcl_get_boolean x with
    | some b => .set (upd b)
    | none => .tclError
  | .jother => .typeError

/-- `IntVar.set(value)`: the plain `Variable.set`, which performs no
type check — `globalsetvar` stores any JSON value without raising.  A
value of the variable's own type keeps the typed view exact; any
other stored value leaves the variable holding data of the wrong type
(`setRaw`). -/
def intVarSet (upd : Int → AppState) (v : JVal) : SetResult :=
  match v with
  | .jint n => .set (upd n)
  | _ => .setRaw

/-- `StringVar.set(value)`: same untyped `Variable.set` as
`intVarSet`. -/
def stringVarSet (upd : String → AppState) (v : JVal) : SetResult :=
  match v with
  | .jstr x => .set (upd x)
  | _ => .setRaw

/-- One step of the loop body of `load_settings`: `if hasattr(self,
key)` and the attribute is a `tk.Variable`, run `var.set(value)` with
the per-variable-class behavior above.  Unknown keys (and keys naming
non-variable attributes) are skipped. -/
def setVar (s : AppState) (key : String) (v : JVal) : SetResult :=
  if key = "always_on_top" then booleanVarSet (fun b => { s with always_on_top := b }) v
  else if key = "audio_bit_rate" then stringVarSet (fun x => { s with audio_bit_rate := x }) v
  else if key = "audio_codec" then stringVarSet (fun x => { s with audio_codec := x }) v
  else if key = "audio_forward" then booleanVarSet (fun b => { s with audio_forward := b }) v
  else if key = "bit_rate" then intVarSet (fun n => { s with bit_rate := n }) v
  else if key = "camera_facing" then stringVarSet (fun x => { s with camera_facing := x }) v
  else if key = "camera_orientation" then stringVarSet (fun x => { s with camera_orientation := x }) v
  else if key = "camera_size" then stringVarSet (fun x => { s with camera_size := x }) v
  else if key = "dark_mode" then booleanVarSet (fun b => { s with dark_mode := b }) v
  else if key = "fullscreen" then booleanVarSet (fun b => { s with fullscreen := b }) v
  else if key = "generated_command" then stringVarSet (fun x => { s with generated_command := x }) v
  else if key = "max_fps" then intVarSet (fun n => { s with max_fps := n }) v
  else if key = "max_size" then stringVarSet (fun x => { s with max_size := x }) v
  else if key = "mirror_camera" then booleanVarSet (fun b => { s with mirror_camera := b }) v
  else if key = "record_file_path" then stringVarSet (fun x => { s with record_file_path := x }) v
  else if key = "record_screen" then booleanVarSet (fun b => { s with record_screen := b }) v
  else if key = "scrcpy_path" then stringVarSet (fun x => { s with scrcpy_path := x }) v
  else if key = "show_touches" then booleanVarSet (fun b => { s with show_touches := b }) v
  else if key = "stay_awake" then booleanVarSet (fun b => { s with stay_awake := b }) v
  else if key = "turn_screen_off" then booleanVarSet (fun b => { s with turn_screen_off := b }) v
  else if key = "v4l2_sink_path" then stringVarSet (fun x => { s with v4l2_sink_path := x }) v
  else if key = "video_buffer" then intVarSet (fun n => { s with video_buffer := n }) v
  else if key = "video_codec" then stringVarSet (fun x => { s with video_codec := x }) v
  else .set s

/-- What the `for key, value in settings.items()` loop of
`load_settings` leaves behind: the typed view of the variables after
the loop (`state`, meaningful for every variable not in `raw`), the
variables left holding a stored value of the wrong type (`raw`), and
whether a `TclError` escaped the `except` handler to the caller
(`raised`).  The `try` wraps the whole loop, so both error kinds end
the loop with the earlier entries applied; they differ only in
whether the caller sees an exception. -/
structure LoadResult where
  state : AppState
  raw : List String
  raised : Bool
deriving DecidableEq

/-- The entry loop.  A type-correct store updates the typed view (and
repairs a variable previously left raw); a raw store records the
variable; a `TypeError` ends the loop caught; a `TclError` ends the
loop and propagates. -/
def applyEntries : List (String × JVal) → AppState → List String → LoadResult
  | [], s, raw => ⟨s, raw, false⟩
  | (k, v) :: rest, s, raw =>
    match setVar s k v with
    | .set s' => applyEntries rest s' (raw.erase k)
    | .setRaw => applyEntries rest s (if k ∈ raw then raw else raw ++ [k])
    | .typeError => ⟨s, raw, false⟩
    | .tclError => ⟨s, raw, true⟩

/-- The possible outcomes of `open` + `json.load` on the settings
file: missing file (`FileNotFoundError`), empty or corrupt content
(`json.JSONDecodeError`), or a parsed JSON object given as its list of
key/value pairs in file order. -/
inductive LoadInput where
  | absent
  | unparsable
  | parsed (entries : List (String × JVal))

/-- `load_settings` (`src/scrcpygui.py` lines 592–604), full outcome:
a missing file (`FileNotFoundError`) and empty or corrupt content
(`JSONDecodeError`) are swallowed leaving everything untouched; a
parsed object runs the entry loop. -/
def load_settings_result (s : AppState) (input : LoadInput) : LoadResult :=
  match input with
  | .absent => ⟨s, [], false⟩
  | .unparsable => ⟨s, [], false⟩
  | .parsed entries => applyEntries entries s []

/-- The typed view of the variables after `load_settings`; it is the
exact in-memory state whenever every applied entry stored a
type-correct value (then `raw = []` and nothing raised), which is in
particular the case for files written by `save_settings`. -/
def load_settings (s : AppState) (input : LoadInput) : AppState :=
  (load_settings_result s input).state

/-- `save_settings` (`src/scrcpygui.py` lines 579–590): the dict
comprehension over `dir(self)` collects every `tk.Variable` attribute
— `dir` enumerates attribute names in sorted order — and writes its
current value.  All 23 variables of `_initialize_variables` are
Variables, so all 23 are serialized. -/
def save_settings (s : AppState) : List (String × JVal) :=
  [("always_on_top", .jbool s.always_on_top),
   ("audio_bit_rate", .jstr s.audio_bit_rate),
   ("audio_codec", .jstr s.audio_codec),
   ("audio_forward", .jbool s.audio_forward),
   ("bit_rate", .jint s.bit_rate),
   ("camera_facing", .jstr s.camera_facing),
   ("camera_orientation", .jstr s.camera_orientation),
   ("camera_size", .jstr s.camera_size),
   ("dark_mode", .jbool s.dark_mode),
   ("fullscreen", .jbool s.fullscreen),
   ("generated_command", .jstr s.generated_command),
   ("max_fps", .jint s.max_fps),
   ("max_size", .jstr s.max_size),
   ("mirror_camera", .jbool s.mirror_camera),
   ("record_file_path", .jstr s.record_file_path),
   ("record_screen", .jbool s.record_screen),
   ("scrcpy_path", .jstr s.scrcpy_path),
   ("show_touches", .jbool s.show_touches),
   ("stay_awake", .jbool s.stay_awake),
   ("turn_screen_off", .jbool s.turn_screen_off),
   ("v4l2_sink_path", .jstr s.v4l2_sink_path),
   ("video_buffer", .jint s.video_buffer),
   ("video_codec", .jstr s.video_codec)]

/-! ## Launch action (`_launch_scrcpy`) -/

/-- Python `p.rfind('/') + 1`: one past the index of the last slash,
`0` when there is none. -/
def rfindSlashP1 : List Char → Nat
  | [] => 0
  | c :: cs =>
    let r := rfindSlashP1 cs
    if r > 0 then r + 1 else if c = '/' then 1 else 0

/-- `os.path.dirname` on POSIX (`posixpath.dirname`): take the text up
to and including the last `/`, then strip trailing slashes unless the
head is empty or all slashes. -/
def os_path_dirname (p : String) : String :=
  let i := rfindSlashP1 p.data
  let head := p.data.take i
  if head ≠ [] ∧ ¬ head.all (· = '/') then
    ⟨(head.reverse.dropWhile (· = '/')).reverse⟩
  else ⟨head⟩

/-- The effect of `subprocess.Popen(final_command_str, shell=True,
cwd=scrcpy_dir)`: the request handed to the operating system.
`Popen` starts the child and returns immediately, so the request does
not wait for the child (`waits := false`). -/
structure LaunchRequest where
  command : String
  shell : Bool
  cwd : String
  waits : Bool
deriving DecidableEq

/-- `_launch_scrcpy` (`src/scrcpygui.py` lines 555–573): a `None`
command shows an error and launches nothing; otherwise the token list
is joined with single spaces and handed to `Popen` with the directory
of the executable as working directory. -/
def launch_scrcpy (s : AppState) : Option LaunchRequest :=
  match build_scrcpy_command s with
  | none => none
  | some cmd =>
      some { command := String.intercalate (" ") cmd
             shell := true
             cwd := os_path_dirname s.scrcpy_path
             waits := false }

/-! ## Prefix machinery -/

/-- A list is a `isPrefixOf` of itself followed by anything. -/
theorem isPrefixOf_append_self (l m : List Char) : l.isPrefixOf (l ++ m) = true := by
  induction l with
  | nil => simp [List.isPrefixOf]
  | cons a as ih => simp [List.isPrefixOf, ih]

/-- If neither of two lists is a prefix of the other (they disagree
within their common length), the first is not a prefix of the second
followed by anything. -/
theorem isPrefixOf_append_eq_false {p l : List Char} (m : List Char)
    (h1 : p.isPrefixOf l = false) (h2 : l.isPrefixOf p = false) :
    p.isPrefixOf (l ++ m) = false := by
  induction p generalizing l with
  | nil => simp [List.isPrefixOf] at h1
  | cons a as ih =>
    cases l with
    | nil => simp [List.isPrefixOf] at h2
    | cons b bs =>
      by_cases hab : a = b
      · subst hab
        simp only [List.isPrefixOf, beq_self_eq_true, Bool.true_and] at h1 h2
        rw [List.cons_append]
        simp only [List.isPrefixOf, beq_self_eq_true, Bool.true_and]
        exact ih h1 h2
      · rw [List.cons_append]
        simp [List.isPrefixOf, hab]

/-- A string extending `l` cannot equal a string `t` of which `l` is
not a prefix. -/
theorem append_ne_of_not_pre {l t : String} (m : String)
    (h : l.data.isPrefixOf t.data = false) : l ++ m ≠ t := by
  intro he
  have hd : l.data ++ m.data = t.data := by
    rw [← String.data_append, he]
  rw [← hd, isPrefixOf_append_self] at h
  cases h

/-- `py_startswith` is false on any extension of `lit` when `pre` and
`lit` disagree within their common length. -/
theorem py_startswith_append_false {pre lit : String} (m : String)
    (h1 : pre.data.isPrefixOf lit.data = false)
    (h2 : lit.data.isPrefixOf pre.data = false) :
    py_startswith (lit ++ m) pre = false := by
  unfold py_startswith
  rw [String.data_append]
  exact isPrefixOf_append_eq_false _ h1 h2

/-! ## Membership helpers -/

/-- Membership in an `ite` of lists, with the condition recorded. -/
theorem mem_ite_iff {α : Type} {c : Prop} [Decidable c] {xs ys : List α} {t : α} :
    t ∈ (if c then xs else ys) ↔ (c ∧ t ∈ xs) ∨ (¬c ∧ t ∈ ys) := by
  by_cases hc : c <;> simp [hc]

/-- Membership in the two-level `ite` shape of the audio flags. -/
theorem mem_ite_ite_nil {α : Type} {c d : Prop} [Decidable c] [Decidable d] {x y t : α} :
    t ∈ (if c then [x] else if d then [y] else []) ↔ (c ∧ t = x) ∨ (¬c ∧ d ∧ t = y) := by
  by_cases hc : c
  · simp [hc]
  · by_cases hd : d <;> simp [hc, hd]

/-- A default state whose executable path has been chosen, used to
instantiate universally quantified theorems. -/
def sample_state : AppState :=
  { initialize_variables with scrcpy_path := "/usr/bin/scrcpy" }

/-! ## Camera mode vs screen mode (claim C2) -/

/-- In camera mode no emitted token starts with `--video-bit-rate=`. -/
theorem camera_no_bitrate_startswith (s : AppState) (hm : s.mirror_camera = true) :
    ∀ t ∈ command_tokens s, py_startswith t ("--video-bit-rate=") = false := by
  intro t ht
  rcases horient : orientation_map_lookup s.camera_orientation with _ | n
  all_goals
    simp only [command_tokens, hm, horient, mem_ite_iff, mem_ite_ite_nil, List.mem_append,
      List.mem_cons, List.mem_singleton, List.not_mem_nil, or_assoc, if_true,
      eq_self_iff_true, true_and, not_true, false_and, and_false, false_or, or_false] at ht
  case none =>
    rcases ht with rfl | rfl | rfl | ⟨-, rfl⟩ | ⟨-, rfl⟩ | ⟨-, rfl⟩ | ⟨-, rfl⟩ | ⟨-, rfl⟩ |
      ⟨-, rfl⟩ | ⟨-, rfl⟩ | ⟨-, -, rfl⟩ | ⟨-, rfl⟩ | ⟨-, rfl⟩ | ⟨-, rfl⟩ | ⟨-, rfl⟩ | ⟨-, rfl⟩ <;>
    first
      | decide
      | (simp only [quote_path]; exact py_startswith_append_false _ (by decide) (by decide))
      | exact py_startswith_append_false _ (by decide) (by decide)
  case some =>
    rcases ht with rfl | rfl | rfl | ⟨-, rfl⟩ | rfl | ⟨-, rfl⟩ | ⟨-, rfl⟩ | ⟨-, rfl⟩ | ⟨-, rfl⟩ |
      ⟨-, rfl⟩ | ⟨-, rfl⟩ | ⟨-, -, rfl⟩ | ⟨-, rfl⟩ | ⟨-, rfl⟩ | ⟨-, rfl⟩ | ⟨-, rfl⟩ | ⟨-, rfl⟩ <;>
    first
      | decide
      | (simp only [quote_path]; exact py_startswith_append_false _ (by decide) (by decide))
      | exact py_startswith_append_false _ (by decide) (by decide)

/-- In screen mode the token `--video-source=camera` is never emitted. -/
theorem screen_no_camera_token (s : AppState) (hm : s.mirror_camera = false) :
    ("--video-source=camera") ∉ command_tokens s := by
  intro hmem
  simp only [command_tokens, hm, mem_ite_iff, mem_ite_ite_nil, List.mem_append,
    List.mem_cons, List.mem_singleton, List.not_mem_nil, or_assoc, if_true, if_false,
    Bool.false_eq_true, eq_self_iff_true, true_and, not_true, not_false_iff,
    false_and, and_false, false_or, or_false] at hmem
  rcases hmem with h | h | h | ⟨-, h⟩ | ⟨-, h⟩ | ⟨-, h⟩ | ⟨-, h⟩ | ⟨-, h⟩ | ⟨-, h⟩ | ⟨-, h⟩ |
    ⟨-, -, h⟩ | ⟨-, h⟩ | ⟨-, h⟩ | ⟨-, h⟩ | ⟨-, h⟩ | ⟨-, h⟩ <;>
  first
    | exact absurd h (by decide)
    | exact append_ne_of_not_pre _ (by decide) h.symm

/-- C2: the token sequence never contains both `--video-source=camera`
and a token beginning with `--video-bit-rate=`: camera-mode flags and
screen-mode flags are mutually exclusive in the output. -/
theorem camera_screen_flags_exclusive (s : AppState) (l : List String)
    (h : build_scrcpy_command s = some l) :
    ¬(("--video-source=camera") ∈ l ∧
      ∃ t ∈ l, py_startswith t ("--video-bit-rate=") = true) := by
  rintro ⟨hcam, t, ht, hpre⟩
  have hl : l = command_tokens s := by
    unfold build_scrcpy_command at h
    split at h
    · exact absurd h (by simp)
    · exact (Option.some.inj h).symm
  subst hl
  cases hmc : s.mirror_camera with
  | true => simp [camera_no_bitrate_startswith s hmc t ht] at hpre
  | false => exact screen_no_camera_token s hmc hcam

/-- Witness for C2 at a concrete option set. -/
theorem camera_screen_flags_exclusive_witness :
    ¬(("--video-source=camera") ∈ command_tokens sample_state ∧
      ∃ t ∈ command_tokens sample_state, py_startswith t ("--video-bit-rate=") = true) :=
  camera_screen_flags_exclusive sample_state (command_tokens sample_state) (by decide)

/-! ## Token origin -/

/-- Every token of the command list arises from exactly one of the
source's `append` sites, under that site's condition. -/
theorem token_origin (s : AppState) (t : String) (ht : t ∈ command_tokens s) :
    t = quote_path s.scrcpy_path ∨
    (s.mirror_camera = true ∧
      (t = "--video-source=camera" ∨
       t = "--camera-facing=" ++ s.camera_facing ∨
       (s.camera_size ≠ "Default" ∧ t = "--camera-size=" ++ pyStrip s.camera_size) ∨
       (∃ n, orientation_map_lookup s.camera_orientation = some n ∧
          t = "--capture-orientation=" ++ n))) ∨
    (s.mirror_camera = false ∧
      (t = "--video-bit-rate=" ++ (toString s.bit_rate ++ "M") ∨
       t = "--max-fps=" ++ toString s.max_fps ∨
       (s.max_size ≠ "Device Native" ∧ t = "--max-size=" ++ s.max_size))) ∨
    (s.fullscreen = true ∧ t = "--fullscreen") ∨
    (s.always_on_top = true ∧ t = "--always-on-top") ∨
    (s.show_touches = true ∧ t = "--show-touches") ∨
    (s.turn_screen_off = true ∧ t = "--turn-screen-off") ∨
    (s.stay_awake = true ∧ t = "--stay-awake") ∨
    (s.audio_forward = false ∧ t = "--no-audio") ∨
    (s.audio_forward = true ∧ s.audio_bit_rate ≠ default_audio_bit_rate ∧
      t = "--audio-bit-rate=" ++ (s.audio_bit_rate ++ "k")) ∨
    (s.record_screen = true ∧ pyStrip s.record_file_path ≠ "" ∧
      t = "--record=\"" ++ (pyStrip s.record_file_path ++ "\"")) ∨
    (s.video_codec ≠ "Default" ∧ t = "--video-codec=" ++ s.video_codec) ∨
    (s.audio_codec ≠ "Default" ∧ t = "--audio-codec=" ++ s.audio_codec) ∨
    (s.video_buffer > 0 ∧ t = "--video-buffer=" ++ toString s.video_buffer) ∨
    (pyStrip s.v4l2_sink_path ≠ "" ∧ t = "--v4l2-sink=" ++ pyStrip s.v4l2_sink_path) := by
  rcases horient : orientation_map_lookup s.camera_orientation with _ | n
  all_goals
    simp only [command_tokens, horient, mem_ite_iff, mem_ite_ite_nil, List.mem_append,
      List.mem_cons, List.mem_singleton, List.not_mem_nil, or_assoc, and_assoc,
      Bool.not_eq_true, Bool.not_eq_false, Bool.not_eq_true', Bool.not_eq_false',
      false_and, and_false, false_or, or_false] at ht
  case none =>
    exact ht.imp id (Or.imp (fun h => ⟨h.1, h.2.imp id (Or.imp id Or.inl)⟩) id)
  case some =>
    exact ht.imp id (Or.imp
      (fun h => ⟨h.1, h.2.imp id (Or.imp id (Or.imp id (fun hh => ⟨n, rfl, hh⟩)))⟩) id)

/-! ## Claim C1: null exactly on empty path, quoted path first -/

/-- C1: for every option set the builder returns `none` exactly when
the executable path is the empty string; with a non-empty path it
returns a non-empty sequence whose first token is the executable path
wrapped in double quotes. -/
theorem build_none_iff_empty_path (s : AppState) :
    (build_scrcpy_command s = none ↔ s.scrcpy_path = "") ∧
    (s.scrcpy_path ≠ "" →
      ∃ rest, build_scrcpy_command s = some (quote_path s.scrcpy_path :: rest)) := by
  constructor
  · unfold build_scrcpy_command
    split
    next h => simp [h]
    next h => simp [h]
  · intro hne
    refine ⟨(command_tokens s).tail, ?_⟩
    unfold build_scrcpy_command
    rw [if_neg hne]
    exact rfl

/-- Witness for C1 at a concrete option set. -/
theorem build_none_iff_empty_path_witness :
    sample_state.scrcpy_path ≠ "" ∧
    ∃ rest, build_scrcpy_command sample_state
      = some (quote_path sample_state.scrcpy_path :: rest) :=
  ⟨by decide, (build_none_iff_empty_path sample_state).2 (by decide)⟩

/-! ## Claim C7: the concrete screen-mode scenario -/

/-- C7: with executable path `/usr/bin/scrcpy`, bit-rate 8, max FPS
60, max resolution "1080", all five booleans false, camera off,
audio-forward true at the default "128", recording off, codecs
"Default", buffer 0 and empty V4L2 path, the builder returns exactly
the four tokens of the spec's scenario, in order. -/
theorem scenario_build_exact :
    build_scrcpy_command sample_state =
      some ["\"/usr/bin/scrcpy\"", "--video-bit-rate=8M", "--max-fps=60", "--max-size=1080"] := by
  decide

theorem py_startswith_append_ne_true {pre lit : String} (m : String)
    (h1 : pre.data.isPrefixOf lit.data = false)
    (h2 : lit.data.isPrefixOf pre.data = false) :
    py_startswith (lit ++ m) pre ≠ true := by
  rw [py_startswith_append_false m h1 h2]
  exact Bool.false_ne_true

theorem count_singleton_zero {a b : String} (h : b ≠ a) : ([a] : List String).count b = 0 :=
  List.count_eq_zero_of_not_mem (by simp [h])

theorem count_pair_zero {a b x : String} (h1 : x ≠ a) (h2 : x ≠ b) :
    ([a, b] : List String).count x = 0 :=
  List.count_eq_zero_of_not_mem (by simp [h1, h2])

theorem count_ite_zero {c : Prop} [Decidable c] {xs ys : List String} {b : String}
    (hx : xs.count b = 0) (hy : ys.count b = 0) : (if c then xs else ys).count b = 0 := by
  split
  · exact hx
  · exact hy

theorem count_no_audio_one (s : AppState) (hf : s.audio_forward = false) :
    (command_tokens s).count ("--no-audio") = 1 := by
  have hne_append : ∀ (lit m : String), lit.data.isPrefixOf ("--no-audio").data = false →
      ("--no-audio") ≠ lit ++ m := fun lit m h hh => append_ne_of_not_pre m h hh.symm
  rcases horient : orientation_map_lookup s.camera_orientation with _ | n
  all_goals
    simp only [command_tokens, quote_path, hf, horient, Bool.not_false, eq_self_iff_true,
      if_true, List.count_append, List.append_nil, List.count_nil]
  case none =>
    rw [count_singleton_zero (hne_append _ _ (by decide)),
      count_ite_zero
        (by simp only [List.count_append]
            rw [count_pair_zero (by decide) (hne_append _ _ (by decide)),
              count_ite_zero (count_singleton_zero (hne_append _ _ (by decide))) (List.count_nil _)])
        (by simp only [List.count_append]
            rw [count_pair_zero (hne_append _ _ (by decide)) (hne_append _ _ (by decide)),
              count_ite_zero (count_singleton_zero (hne_append _ _ (by decide))) (List.count_nil _)]),
      count_ite_zero (count_singleton_zero (by decide)) (List.count_nil _),
      count_ite_zero (count_singleton_zero (by decide)) (List.count_nil _),
      count_ite_zero (count_singleton_zero (by decide)) (List.count_nil _),
      count_ite_zero (count_singleton_zero (by decide)) (List.count_nil _),
      count_ite_zero (count_singleton_zero (by decide)) (List.count_nil _),
      count_ite_zero (count_singleton_zero (hne_append _ _ (by decide))) (List.count_nil _),
      count_ite_zero (count_singleton_zero (hne_append _ _ (by decide))) (List.count_nil _),
      count_ite_zero (count_singleton_zero (hne_append _ _ (by decide))) (List.count_nil _),
      count_ite_zero (count_singleton_zero (hne_append _ _ (by decide))) (List.count_nil _),
      count_ite_zero (count_singleton_zero (hne_append _ _ (by decide))) (List.count_nil _)]
    simp
  case some =>
    rw [count_singleton_zero (hne_append _ _ (by decide)),
      count_ite_zero
        (by simp only [List.count_append]
            rw [count_pair_zero (by decide) (hne_append _ _ (by decide)),
              count_ite_zero (count_singleton_zero (hne_append _ _ (by decide))) (List.count_nil _),
              count_singleton_zero (hne_append _ _ (by decide))])
        (by simp only [List.count_append]
            rw [count_pair_zero (hne_append _ _ (by decide)) (hne_append _ _ (by decide)),
              count_ite_zero (count_singleton_zero (hne_append _ _ (by decide))) (List.count_nil _)]),
      count_ite_zero (count_singleton_zero (by decide)) (List.count_nil _),
      count_ite_zero (count_singleton_zero (by decide)) (List.count_nil _),
      count_ite_zero (count_singleton_zero (by decide)) (List.count_nil _),
      count_ite_zero (count_singleton_zero (by decide)) (List.count_nil _),
      count_ite_zero (count_singleton_zero (by decide)) (List.count_nil _),
      count_ite_zero (count_singleton_zero (hne_append _ _ (by decide))) (List.count_nil _),
      count_ite_zero (count_singleton_zero (hne_append _ _ (by decide))) (List.count_nil _),
      count_ite_zero (count_singleton_zero (hne_append _ _ (by decide))) (List.count_nil _),
      count_ite_zero (count_singleton_zero (hne_append _ _ (by decide))) (List.count_nil _),
      count_ite_zero (count_singleton_zero (hne_append _ _ (by decide))) (List.count_nil _)]
    simp

/-- Extract the token list from a successful build. -/
theorem build_eq_some (s : AppState) {l : List String}
    (h : build_scrcpy_command s = some l) : l = command_tokens s := by
  unfold build_scrcpy_command at h
  split at h
  · exact absurd h (by simp)
  · exact (Option.some.inj h).symm

/-- A token starting with `--audio-bit-rate` is only ever emitted when
audio is forwarded at a non-default bit rate. -/
theorem bitrate_prefix_token_needs (s : AppState) (t : String) (ht : t ∈ command_tokens s)
    (hp : py_startswith t ("--audio-bit-rate") = true) :
    s.audio_forward = true ∧ s.audio_bit_rate ≠ default_audio_bit_rate := by
  rcases token_origin s t ht with rfl | ⟨-, rfl | rfl | ⟨-, rfl⟩ | ⟨n, -, rfl⟩⟩ |
    ⟨-, rfl | rfl | ⟨-, rfl⟩⟩ | ⟨-, rfl⟩ | ⟨-, rfl⟩ | ⟨-, rfl⟩ | ⟨-, rfl⟩ | ⟨-, rfl⟩ |
    ⟨-, rfl⟩ | ⟨h1, h2, rfl⟩ | ⟨-, -, rfl⟩ | ⟨-, rfl⟩ | ⟨-, rfl⟩ | ⟨-, rfl⟩ | ⟨-, rfl⟩ <;>
  first
    | exact absurd hp (by decide)
    | exact absurd hp (py_startswith_append_ne_true _ (by decide) (by decide))
    | exact ⟨h1, h2⟩

/-- The token `--no-audio` is only ever emitted when audio forwarding
is off. -/
theorem no_audio_mem_needs (s : AppState) (hmem : ("--no-audio") ∈ command_tokens s) :
    s.audio_forward = false := by
  rcases token_origin s _ hmem with h | ⟨-, h | h | ⟨-, h⟩ | ⟨n, -, h⟩⟩ |
    ⟨-, h | h | ⟨-, h⟩⟩ | ⟨-, h⟩ | ⟨-, h⟩ | ⟨-, h⟩ | ⟨-, h⟩ | ⟨-, h⟩ |
    ⟨hoff, h⟩ | ⟨-, -, h⟩ | ⟨-, -, h⟩ | ⟨-, h⟩ | ⟨-, h⟩ | ⟨-, h⟩ | ⟨-, h⟩ <;>
  first
    | exact absurd h (by decide)
    | exact absurd h.symm (append_ne_of_not_pre _ (by decide))
    | assumption

/-- With audio off the `--no-audio` token is present. -/
theorem no_audio_mem_of_off (s : AppState) (hf : s.audio_forward = false) :
    ("--no-audio") ∈ command_tokens s := by
  simp [command_tokens, hf, mem_ite_iff]

/-- With audio on at a non-default bit rate the `--audio-bit-rate`
token is present. -/
theorem bitrate_mem_of_on_nondefault (s : AppState) (hf : s.audio_forward = true)
    (hd : s.audio_bit_rate ≠ default_audio_bit_rate) :
    ("--audio-bit-rate=" ++ (s.audio_bit_rate ++ "k")) ∈ command_tokens s := by
  simp [command_tokens, hf, hd, mem_ite_iff]

/-! ## Claim C4: audio flag rules -/

/-- C4: audio-forward off emits exactly one `--no-audio` and no
`--audio-bit-rate` token; audio-forward on at the default "128" emits
neither; audio-forward on at a non-default value v emits
`--audio-bit-rate=<v>k` and no `--no-audio`. -/
theorem audio_flag_rules (s : AppState) (l : List String)
    (h : build_scrcpy_command s = some l) :
    (s.audio_forward = false →
      l.count ("--no-audio") = 1 ∧
      ∀ t ∈ l, py_startswith t ("--audio-bit-rate") = false) ∧
    (s.audio_forward = true → s.audio_bit_rate = "128" →
      ("--no-audio") ∉ l ∧
      ∀ t ∈ l, py_startswith t ("--audio-bit-rate") = false) ∧
    (s.audio_forward = true → s.audio_bit_rate ≠ "128" →
      ("--audio-bit-rate=" ++ (s.audio_bit_rate ++ "k")) ∈ l ∧
      ("--no-audio") ∉ l) := by
  obtain rfl := build_eq_some s h
  refine ⟨fun hf => ⟨count_no_audio_one s hf, fun t ht => ?_⟩,
    fun hf hd => ⟨fun hmem => ?_, fun t ht => ?_⟩,
    fun hf hd => ⟨bitrate_mem_of_on_nondefault s hf hd, fun hmem => ?_⟩⟩
  · by_contra hb
    rw [Bool.not_eq_false] at hb
    have := (bitrate_prefix_token_needs s t ht hb).1
    rw [hf] at this
    exact absurd this (by decide)
  · have := no_audio_mem_needs s hmem
    rw [hf] at this
    exact absurd this (by decide)
  · by_contra hb
    rw [Bool.not_eq_false] at hb
    exact absurd hd (bitrate_prefix_token_needs s t ht hb).2
  · have := no_audio_mem_needs s hmem
    rw [hf] at this
    exact absurd this (by decide)

/-- Witness for C4 at a concrete option set (audio on at the
default). -/
theorem audio_flag_rules_witness :
    ("--no-audio") ∉ command_tokens sample_state ∧
    ∀ t ∈ command_tokens sample_state, py_startswith t ("--audio-bit-rate") = false :=
  (audio_flag_rules sample_state (command_tokens sample_state) (by decide)).2.1
    (by decide) (by decide)

/-! ## Claim C5: orientation mapping -/

/-- A token starting with `--capture-orientation` is only ever emitted
when the orientation label is in the fixed map (and then it carries
the mapped digit). -/
theorem orientation_token_needs (s : AppState) (t : String) (ht : t ∈ command_tokens s)
    (hp : py_startswith t ("--capture-orientation") = true) :
    ∃ n, orientation_map_lookup s.camera_orientation = some n ∧
      t = "--capture-orientation=" ++ n := by
  rcases token_origin s t ht with rfl | ⟨-, rfl | rfl | ⟨-, rfl⟩ | ⟨n, horl, rfl⟩⟩ |
    ⟨-, rfl | rfl | ⟨-, rfl⟩⟩ | ⟨-, rfl⟩ | ⟨-, rfl⟩ | ⟨-, rfl⟩ | ⟨-, rfl⟩ | ⟨-, rfl⟩ |
    ⟨-, rfl⟩ | ⟨-, -, rfl⟩ | ⟨-, -, rfl⟩ | ⟨-, rfl⟩ | ⟨-, rfl⟩ | ⟨-, rfl⟩ | ⟨-, rfl⟩ <;>
  first
    | exact absurd hp (by decide)
    | exact absurd hp (py_startswith_append_ne_true _ (by decide) (by decide))
    | exact ⟨n, horl, rfl⟩

/-- C5: in camera mode the orientation label is mapped through the
exact fixed mapping 0°→0, 90°→1, 180°→2, 270°→3 to a
`--capture-orientation=<N>` token, and any label outside the four
(including "Default") yields no orientation token and no error. -/
theorem orientation_mapping (s : AppState) (l : List String)
    (h : build_scrcpy_command s = some l) (hm : s.mirror_camera = true) :
    (orientation_map_lookup ("0°") = some ("0") ∧
     orientation_map_lookup ("90°") = some ("1") ∧
     orientation_map_lookup ("180°") = some ("2") ∧
     orientation_map_lookup ("270°") = some ("3") ∧
     orientation_map_lookup ("Default") = none) ∧
    (∀ n, orientation_map_lookup s.camera_orientation = some n →
      ("--capture-orientation=" ++ n) ∈ l) ∧
    (orientation_map_lookup s.camera_orientation = none →
      ∀ t ∈ l, py_startswith t ("--capture-orientation") = false) := by
  obtain rfl := build_eq_some s h
  refine ⟨by decide, fun n horient => ?_, fun hnone t ht => ?_⟩
  · simp [command_tokens, hm, horient, mem_ite_iff]
  · by_contra hb
    rw [Bool.not_eq_false] at hb
    obtain ⟨n, hsome, -⟩ := orientation_token_needs s t ht hb
    rw [hnone] at hsome
    exact absurd hsome (by simp)

/-- Witness for C5: camera mode with orientation "90°" emits
`--capture-orientation=1`. -/
theorem orientation_mapping_witness :
    ("--capture-orientation=" ++ ("1" : String)) ∈
      command_tokens { sample_state with mirror_camera := true, camera_orientation := "90°" } :=
  ((orientation_mapping { sample_state with mirror_camera := true, camera_orientation := "90°" }
      (command_tokens { sample_state with mirror_camera := true, camera_orientation := "90°" })
      (by decide) (by decide)).2.1) ("1") (by decide)

/-! ## Claim C9: camera-size compared before trimming -/

/-- A token starting with `--camera-size` is only ever emitted when
the untrimmed size value differs from "Default". -/
theorem camera_size_token_needs (s : AppState) (t : String) (ht : t ∈ command_tokens s)
    (hp : py_startswith t ("--camera-size") = true) :
    s.camera_size ≠ "Default" := by
  rcases token_origin s t ht with rfl | ⟨-, rfl | rfl | ⟨hsz, rfl⟩ | ⟨n, -, rfl⟩⟩ |
    ⟨-, rfl | rfl | ⟨-, rfl⟩⟩ | ⟨-, rfl⟩ | ⟨-, rfl⟩ | ⟨-, rfl⟩ | ⟨-, rfl⟩ | ⟨-, rfl⟩ |
    ⟨-, rfl⟩ | ⟨-, -, rfl⟩ | ⟨-, -, rfl⟩ | ⟨-, rfl⟩ | ⟨-, rfl⟩ | ⟨-, rfl⟩ | ⟨-, rfl⟩ <;>
  first
    | exact absurd hp (by decide)
    | exact absurd hp (py_startswith_append_ne_true _ (by decide) (by decide))
    | assumption

/-- C9: in camera mode the size is compared against "Default" before
trimming: a size differing from "Default" only by surrounding
whitespace still emits `--camera-size=Default`, while the exact string
"Default" emits no camera-size token. -/
theorem camera_size_untrimmed_compare (s : AppState) (l : List String)
    (h : build_scrcpy_command s = some l) (hm : s.mirror_camera = true) :
    (s.camera_size ≠ "Default" → pyStrip s.camera_size = "Default" →
      ("--camera-size=Default") ∈ l) ∧
    (s.camera_size = "Default" →
      ∀ t ∈ l, py_startswith t ("--camera-size") = false) := by
  obtain rfl := build_eq_some s h
  constructor
  · intro hne hstrip
    have htok : ("--camera-size=Default" : String)
        = "--camera-size=" ++ pyStrip s.camera_size := by
      rw [hstrip]
      decide
    rw [htok]
    simp [command_tokens, hm, hne, mem_ite_iff]
  · intro hdef t ht
    by_contra hb
    rw [Bool.not_eq_false] at hb
    exact absurd hdef (camera_size_token_needs s t ht hb)

/-- Witness for C9 at the size value " Default ". -/
theorem camera_size_untrimmed_compare_witness :
    ("--camera-size=Default") ∈
      command_tokens { sample_state with mirror_camera := true, camera_size := " Default " } :=
  ((camera_size_untrimmed_compare
      { sample_state with mirror_camera := true, camera_size := " Default " }
      (command_tokens { sample_state with mirror_camera := true, camera_size := " Default " })
      (by decide) (by decide)).1) (by decide) (by decide)

/-! ## Claims C6, C10: settings persistence -/

/-- Loading a saved option set restores every field, from any starting
state: each of the 23 saved keys names a variable of matching type, so
every `var.set` succeeds and overwrites the corresponding field. -/
theorem load_save_overwrites (d s : AppState) :
    load_settings d (LoadInput.parsed (save_settings s)) = s := rfl

/-- C6: save followed by load round-trips — loading a saved option set
into a fresh default option set restores every field — and loading
from a nonexistent path leaves the fresh option set at its defaults. -/
theorem save_load_roundtrip (s : AppState) :
    load_settings initialize_variables (LoadInput.parsed (save_settings s)) = s ∧
    load_settings initialize_variables LoadInput.absent = initialize_variables :=
  ⟨load_save_overwrites initialize_variables s, rfl⟩

/-- C10: the settings map written by save contains keys for the theme
flag `dark_mode` and the derived preview string `generated_command` in
addition to the option keys, and a load overwrites those variables
from the file as well. -/
theorem save_includes_ui_variables (s d : AppState) :
    ("dark_mode", JVal.jbool s.dark_mode) ∈ save_settings s ∧
    ("generated_command", JVal.jstr s.generated_command) ∈ save_settings s ∧
    (load_settings d (LoadInput.parsed (save_settings s))).dark_mode = s.dark_mode ∧
    (load_settings d (LoadInput.parsed (save_settings s))).generated_command
      = s.generated_command := by
  refine ⟨by simp [save_settings], by simp [save_settings], ?_, ?_⟩ <;>
    rw [load_save_overwrites]

/-! ## Claim C3: load error tolerance -/

/-- C3: the claim states the code's evident intent (its own comment
reads "Ignore if file doesn't exist, is empty, or is corrupted"), but
the code does not meet it on type-mismatched values.  At the parsed
content with "oops" for the boolean `fullscreen`, `BooleanVar.set`
raises a `TclError` that `except (FileNotFoundError, JSONDecodeError,
TypeError)` does not catch, so the load raises to the caller; at
"oops" for the integer `bit_rate` the mismatched string is stored
without any exception, so that variable no longer yields its default
— the load is not a no-op.  Absent, empty and unparsable files are
handled as claimed. -/
theorem load_mismatch_bug :
    (load_settings_result initialize_variables
        (LoadInput.parsed [("fullscreen", JVal.jstr ("oops"))])).raised = true ∧
    (load_settings_result initialize_variables
        (LoadInput.parsed [("bit_rate", JVal.jstr ("oops"))])).raw = ["bit_rate"] ∧
    (load_settings_result initialize_variables
        (LoadInput.parsed [("bit_rate", JVal.jstr ("oops"))])).raised = false ∧
    load_settings_result initialize_variables LoadInput.absent
      = ⟨initialize_variables, [], false⟩ ∧
    load_settings_result initialize_variables LoadInput.unparsable
      = ⟨initialize_variables, [], false⟩ := by
  decide

/-! ## Claim C8: the launch action -/

/-- C8: for every successful build, the launch action hands the
operating system the tokens joined by single spaces, run from the
containing directory of the executable path, without waiting for the
child process. -/
theorem launch_request_spec (s : AppState) (l : List String)
    (h : build_scrcpy_command s = some l) :
    launch_scrcpy s = some
      { command := String.intercalate (" ") l
        shell := true
        cwd := os_path_dirname s.scrcpy_path
        waits := false } := by
  unfold launch_scrcpy
  rw [h]

/-- Witness for C8 at a concrete option set: the joined command and
the directory `/usr/bin` of the executable. -/
theorem launch_request_spec_witness :
    launch_scrcpy sample_state = some
      { command := String.intercalate (" ")
          ["\"/usr/bin/scrcpy\"", "--video-bit-rate=8M", "--max-fps=60", "--max-size=1080"]
        shell := true
        cwd := os_path_dirname sample_state.scrcpy_path
        waits := false } :=
  launch_request_spec sample_state
    ["\"/usr/bin/scrcpy\"", "--video-bit-rate=8M", "--max-fps=60", "--max-size=1080"]
    (by decide)
